import Mathlib

/-!
Shallow embedding of the IB-GenAI-RnD-Tool core: the sparse corpus table and
its facet filter engine (`IB_NGP_Harm_Reduction_Insights.py`), the four-tier
path resolver and insight extraction (`insights_utils.py`), and the FAISS-based
passage retrieval engine (`RAG_architecture.py`).

Cell values of the pandas DataFrame are modelled by `PVal` (NaN, string, or
integer); Python truthiness, `pd.isna`, `str(...)`, `.strip()` and
`int(float(...))` are modelled explicitly.  Document columns are `String`s.
-/

namespace Spec2Proof

/-- A pandas cell value: `NaN`, a string, or a number (numbers are modelled as
integers; `int(float(n)) = n` for them). -/
inductive PVal where
  | na : PVal
  | s (v : String) : PVal
  | i (n : Int) : PVal
deriving DecidableEq

/-- Python truthiness of a cell value.  NaN is truthy (`bool(float('nan')) = True`),
a string is truthy iff nonempty, a number iff nonzero. -/
def PVal.truthy : PVal → Bool
  | .na => true
  | .s v => v ≠ ""
  | .i n => n ≠ 0

/-- `pd.isna` on a cell value. -/
def PVal.isna : PVal → Bool
  | .na => true
  | _ => false

/-- Python `str(...)` of a cell value (`str(float('nan')) = "nan"`). -/
def PVal.toStr : PVal → String
  | .na => "nan"
  | .s v => v
  | .i n => toString n

/-- Python `str.strip()`: drop whitespace from both ends. -/
def pyStrip (s : String) : String :=
  ⟨((s.data.dropWhile Char.isWhitespace).reverse.dropWhile Char.isWhitespace).reverse⟩

/-- Digits to the natural number they denote, most significant first. -/
def digitsToNat (cs : List Char) : Nat :=
  cs.foldl (fun a c => a * 10 + (c.toNat - ('0').toNat)) 0

/-- Model of Python `int(float(s))` on a string: optional surrounding
whitespace and sign, decimal digits with an optional fractional part
(truncated toward zero); anything else — including `"nan"`, `"inf"` and the
exponent forms not used by this corpus — fails (`none`, i.e. `ValueError`). -/
def pyParseStr (str0 : String) : Option Int :=
  let cs := (pyStrip str0).data
  let signed : Int × List Char :=
    match cs with
    | '-' :: rest => (-1, rest)
    | '+' :: rest => (1, rest)
    | _ => (1, cs)
  let intDigits := signed.2.takeWhile Char.isDigit
  let rest := signed.2.dropWhile Char.isDigit
  match rest with
  | [] =>
      if intDigits.isEmpty then none
      else some (signed.1 * (digitsToNat intDigits : Int))
  | '.' :: frac =>
      if frac.all Char.isDigit && !(intDigits.isEmpty && frac.isEmpty) then
        some (signed.1 * (digitsToNat intDigits : Int))
      else none
  | _ => none

/-- Model of Python `int(float(v))` on a raw cell value: `int(nan)` raises,
a stored number is returned as is, a string is parsed. -/
def PVal.parseIF : PVal → Option Int
  | .na => none
  | .i n => some n
  | .s v => pyParseStr v

/-- Python `dict` insertion: an existing key keeps its position and gets the
new value, a new key is appended. -/
def dictInsert {β : Type} : List (String × β) → String → β → List (String × β)
  | [], k, v => [(k, v)]
  | (k0, v0) :: rest, k, v =>
      if k0 = k then (k0, v) :: rest else (k0, v0) :: dictInsert rest k v

/-- Python `dict` lookup. -/
def dictLookup {β : Type} : List (String × β) → String → Option β
  | [], _ => none
  | (k0, v0) :: rest, k => if k0 = k then some v0 else dictLookup rest k

/-- One row of the sparse corpus table: the (Main Category, Category,
SubCategory) triple plus one cell value per document column. -/
structure Row where
  mainCategory : PVal
  category : PVal
  subCategory : PVal
  cell : String → PVal

/-- The corpus DataFrame: its rows, its document columns (`df.columns[3:]`),
and whether a `SubCategory` column is present. -/
structure DF where
  rows : List Row
  docCols : List String
  hasSubCol : Bool

/-- Rows whose `Category` equals the given string (`df[df['Category'] == c]`);
a NaN or numeric `Category` never equals a string. -/
def DF.catRows (df : DF) (c : String) : List Row :=
  df.rows.filter (fun r => decide (r.category = PVal.s c))

/-- Rows whose `SubCategory` equals the given string. -/
def DF.subRows (df : DF) (c : String) : List Row :=
  df.rows.filter (fun r => decide (r.subCategory = PVal.s c))

/-- `c in df['Category'].values` for a string `c`. -/
def DF.hasCat (df : DF) (c : String) : Bool :=
  df.rows.any (fun r => decide (r.category = PVal.s c))

/-- `c in df['SubCategory'].values` for a string `c`. -/
def DF.hasSub (df : DF) (c : String) : Bool :=
  df.rows.any (fun r => decide (r.subCategory = PVal.s c))

/-! ## Facet filter engine: `count_matching_documents` -/

/-- The body shared by both range-facet checks of `count_matching_documents`:
`if value: try: n = int(float(value)); check bounds except ValueError: no match`. -/
def rangeInner (v : PVal) (lo hi : Int) : Bool :=
  if v.truthy then
    match v.parseIF with
    | none => false
    | some y => decide (lo ≤ y) && decide (y ≤ hi)
  else true

/-- A full range-facet check: gate on the presence of the attribute row, then
run `rangeInner` on the document's value in the first such row. -/
def rangeCheck (present : Bool) (firstRow : Option Row) (lo hi : Int) (doc : String) : Bool :=
  if present then
    match firstRow with
    | none => true
    | some r => rangeInner (r.cell doc) lo hi
  else true

/-- The year check of `count_matching_documents` for one document column:
if a `publication_year` row exists and the document's value in the first such
row is truthy, `int(float(value))` must succeed and fall in
`[year_range[0], year_range[1]]`; a parse failure (`ValueError`) marks the
document as not matching. -/
def yearOK (df : DF) (yearRange : Int × Int) (doc : String) : Bool :=
  rangeCheck (df.hasCat "publication_year") (df.catRows "publication_year").head?
    yearRange.1 yearRange.2 doc

/-- The sample-size check of `count_matching_documents`: only applied when a
range is supplied (the filter is enabled) and a `total_size` row exists. -/
def sizeOK (df : DF) (sampleSizeRange : Option (Int × Int)) (doc : String) : Bool :=
  match sampleSizeRange with
  | none => true
  | some range =>
      rangeCheck (df.hasSub "total_size") (df.subRows "total_size").head?
        range.1 range.2 doc

/-- `selected_value.split(' {')[0]`: the base value of a facet option,
without the occurrence count in curly braces. -/
def baseOf (v : String) : String :=
  ⟨go v.data⟩
where
  /-- Characters before the first occurrence of `" \x7b"`. -/
  go : List Char → List Char
    | [] => []
    | ' ' :: '{' :: _ => []
    | c :: rest => c :: go rest

/-- The common categorical check of `count_matching_documents` (publication
type / funding source / study design): skipped when the selection is empty
(falsy) or contains `"All"` or the row is absent; otherwise a truthy stored
value must equal the base of one of the selected options. -/
def catSelOK (selection : List String) (present : Bool) (firstRow : Option Row)
    (doc : String) : Bool :=
  if !selection.isEmpty && !selection.contains "All" && present then
    match firstRow with
    | none => true
    | some r =>
        let v := r.cell doc
        if v.truthy then
          selection.any (fun sel => decide (v.toStr = baseOf sel))
        else true
  else true

/-- The publication-type check. -/
def pubOK (df : DF) (selection : List String) (doc : String) : Bool :=
  catSelOK selection (df.hasCat "publication_type") (df.catRows "publication_type").head? doc

/-- The funding-source check (`SubCategory == 'type'`). -/
def fundOK (df : DF) (selection : List String) (doc : String) : Bool :=
  catSelOK selection (df.hasSub "type") (df.subRows "type").head? doc

/-- The study-design check (`SubCategory == 'primary_type'`). -/
def designOK (df : DF) (selection : List String) (doc : String) : Bool :=
  catSelOK selection (df.hasSub "primary_type") (df.subRows "primary_type").head? doc

/-- `matches_all_criteria` of `count_matching_documents`: the conjunction of
the five facet checks. -/
def matchesAll (df : DF) (yearRange : Int × Int) (sampleSizeRange : Option (Int × Int))
    (pubSel fundSel designSel : List String) (doc : String) : Bool :=
  yearOK df yearRange doc && sizeOK df sampleSizeRange doc &&
    pubOK df pubSel doc && fundOK df fundSel doc && designOK df designSel doc

/-- Model of `count_matching_documents`: the document columns that pass all
five facet checks, in column order. -/
def countMatchingDocuments (df : DF) (yearRange : Int × Int)
    (sampleSizeRange : Option (Int × Int)) (pubSel fundSel designSel : List String) :
    List String :=
  df.docCols.filter (matchesAll df yearRange sampleSizeRange pubSel fundSel designSel)

/-- Model of `get_publication_years`: every parseable year value of every
`publication_year` row over every document column; the fixed default when the
category is absent. -/
def getPublicationYears (df : DF) : List Int :=
  if df.hasCat "publication_year" then
    df.docCols.flatMap (fun doc =>
      (df.catRows "publication_year").filterMap (fun r =>
        let v := r.cell doc
        if v.isna then none else pyParseStr v.toStr))
  else [2011, 2025]

/-! ## Facet options: `get_unique_values_filtered` and the sidebar cascade -/

/-- The occurrence sequence scanned by `get_unique_values_filtered`: for each
matching document column in order, the values of the selected rows that are
non-NaN (`dropna`), converted by `astype(str)`, and neither empty nor the
string `"nan"`. -/
def occurrenceSeq (selRows : List Row) (matchingDocs : List String) : List String :=
  matchingDocs.flatMap (fun doc =>
    selRows.filterMap (fun r =>
      let v := r.cell doc
      if v.isna then none
      else if v.toStr ≠ "" && v.toStr ≠ "nan" then some v.toStr else none))

/-- `value_counts`: occurrence counts as a Python dict, keys in first-occurrence
order. -/
def valueCounts (occ : List String) : List (String × Nat) :=
  occ.foldl (fun acc v =>
    match dictLookup acc v with
    | some n => dictInsert acc v (n + 1)
    | none => dictInsert acc v 1) []

/-- Descending-by-count order on counted values (the sort key of
`sorted(..., key=count, reverse=True)`). -/
def countGE (p q : String × Nat) : Prop := q.2 ≤ p.2

instance : DecidableRel countGE := fun p q => Nat.decLe q.2 p.2

/-- `sorted(value_counts.items(), key=lambda x: x[1], reverse=True)`:
a stable descending sort by count. -/
def sortByCountDesc (l : List (String × Nat)) : List (String × Nat) :=
  l.insertionSort countGE

/-- `f"{value} \x7b{count}\x7d"`: a facet option label. -/
def fmtOption (p : String × Nat) : String :=
  p.1 ++ " \x7b" ++ toString p.2 ++ "\x7d"

/-- The row set `get_unique_values_filtered` counts over: `SubCategory` rows
when a subcategory name is given, `Category` rows otherwise, and no rows when
the column/value gate fails. -/
def uniqueValueRows (df : DF) (categoryName : Option String) (subcategoryName : Option String) :
    List Row :=
  match subcategoryName with
  | some sub => if df.hasSubCol && df.hasSub sub then df.subRows sub else []
  | none =>
      match categoryName with
      | some cat => if df.hasCat cat then df.catRows cat else []
      | none => []

/-- The sorted counted values of `get_unique_values_filtered` (before
formatting; `[]` when no documents match). -/
def uniqueValueCounts (df : DF) (categoryName : Option String) (subcategoryName : Option String)
    (matchingDocs : List String) : List (String × Nat) :=
  if matchingDocs.isEmpty then []
  else sortByCountDesc (valueCounts (occurrenceSeq (uniqueValueRows df categoryName subcategoryName) matchingDocs))

/-- Model of `get_unique_values_filtered`: `"All"` followed by the counted
values in descending count order, formatted as `value \x7bcount\x7d`. -/
def getUniqueValuesFiltered (df : DF) (categoryName : Option String)
    (subcategoryName : Option String) (matchingDocs : List String) : List String :=
  if matchingDocs.isEmpty then ["All"]
  else "All" :: (uniqueValueCounts df categoryName subcategoryName matchingDocs).map fmtOption

/-- `base_pub_types` and its analogues: `"All"` plus the bases of the non-`All`
fresh options. -/
def revalidOptions (options : List String) : List String :=
  "All" :: (options.filter (fun o => decide (o ≠ "All"))).map baseOf

/-- One iteration of the revalidation loop, on the base of one selected value:
keep `"All"` as `"All"`, replace a base found among the fresh options by the
first fresh option with that base, drop anything else. -/
def revalidOne (options : List String) (baseVal : String) : Option String :=
  if (revalidOptions options).contains baseVal || baseVal = "All" then
    if baseVal = "All" then some "All"
    else (options.filter (fun opt => decide (baseOf opt = baseVal))).head?
  else none

/-- The selection-revalidation block run after each categorical facet's option
list is recomputed (the `valid_pub_types` / `valid_funding_sources` /
`valid_study_designs` loops): each selected value whose base appears among the
fresh options is replaced by the first fresh option with that base (`"All"`
stays `"All"`), the others are dropped; an empty result resets to `["All"]`. -/
def revalidateSelection (options : List String) (selection : List String) : List String :=
  if ((selection.map baseOf).filterMap (revalidOne options)).isEmpty then ["All"]
  else (selection.map baseOf).filterMap (revalidOne options)

/-- The outputs of the sidebar filter cascade. -/
structure CascadeResult where
  initialDocs : List String
  pubOptions : List String
  pubSelection : List String
  docsAfterPubType : List String
  fundOptions : List String
  fundSelection : List String
  docsAfterFunding : List String
  designOptions : List String
  designSelection : List String

/-- Model of the module-level sidebar cascade: year-filtered documents feed the
publication-type options; the revalidated publication-type selection is applied
before computing funding-source options; the revalidated funding selection is
applied before computing study-design options. -/
def sidebarCascade (df : DF) (yearRange : Int × Int)
    (pubSel0 fundSel0 designSel0 : List String) : CascadeResult :=
  let initialDocs := countMatchingDocuments df yearRange none ["All"] ["All"] ["All"]
  let pubOptions := getUniqueValuesFiltered df (some "publication_type") none initialDocs
  let pubSel := revalidateSelection pubOptions pubSel0
  let docsAfterPubType := countMatchingDocuments df yearRange none pubSel ["All"] ["All"]
  let fundOptions := getUniqueValuesFiltered df none (some "type") docsAfterPubType
  let fundSel := revalidateSelection fundOptions fundSel0
  let docsAfterFunding := countMatchingDocuments df yearRange none pubSel fundSel ["All"]
  let designOptions := getUniqueValuesFiltered df none (some "primary_type") docsAfterFunding
  let designSel := revalidateSelection designOptions designSel0
  { initialDocs := initialDocs
    pubOptions := pubOptions
    pubSelection := pubSel
    docsAfterPubType := docsAfterPubType
    fundOptions := fundOptions
    fundSelection := fundSel
    docsAfterFunding := docsAfterFunding
    designOptions := designOptions
    designSelection := designSel }

/-! ## Path resolution (the four-tier block of
`extract_research_insights_from_docs`) -/

/-- One pattern character against one text character, with `re` semantics for
the only metacharacter occurring in dotted field paths: `.` matches any
character except a newline. -/
def charMatches (pc c : Char) : Bool :=
  if pc = '.' then c ≠ '\n' else pc = c

/-- Does the pattern match a prefix of the text? -/
def matchesPrefix : List Char → List Char → Bool
  | [], _ => true
  | _ :: _, [] => false
  | pc :: ps, c :: cs => charMatches pc c && matchesPrefix ps cs

/-- Does the pattern match starting at some position of the text? -/
def searchFrom (pat : List Char) : List Char → Bool
  | [] => matchesPrefix pat []
  | c :: cs => matchesPrefix pat (c :: cs) || searchFrom pat cs

/-- Model of `Series.str.contains(pat)` (hence Python `re.search`) for the
patterns used here — dotted field paths, whose only regex metacharacter is
`.`. -/
def regexContains (text pat : String) : Bool :=
  searchFrom pat.data text.data

/-- Plain substring containment, the relation the spec's words describe. -/
def substrContains (text pat : String) : Bool :=
  decide (pat.data <:+: text.data)

/-- Tier 1: `df[df['Category'] == path]`. -/
def tierCatEq (df : DF) (path : String) : List Row :=
  df.catRows path

/-- Tier 2: `df[df['Category'].str.contains(path, na=False)]` — regex
containment, NaN never matches. -/
def tierCatContains (df : DF) (path : String) : List Row :=
  df.rows.filter (fun r =>
    match r.category with
    | .s c => regexContains c path
    | _ => false)

/-- Tier 3: `df[df['SubCategory'] == path]`. -/
def tierSubEq (df : DF) (path : String) : List Row :=
  df.subRows path

/-- Tier 4: `df[df['SubCategory'].str.contains(path, na=False)]`. -/
def tierSubContains (df : DF) (path : String) : List Row :=
  df.rows.filter (fun r =>
    match r.subCategory with
    | .s c => regexContains c path
    | _ => false)

/-- The four-tier fallback of `extract_research_insights_from_docs`
(lines 49–61): Category equality, then Category regex containment, then —
only when the DataFrame has a `SubCategory` column — SubCategory equality and
SubCategory regex containment. -/
def resolvePath (df : DF) (path : String) : List Row :=
  let rows1 := tierCatEq df path
  let rows2 := if rows1.isEmpty then tierCatContains df path else rows1
  if rows2.isEmpty && df.hasSubCol then
    let rows3 := tierSubEq df path
    if rows3.isEmpty then tierSubContains df path else rows3
  else rows2

/-- The resolver exactly as the spec words it (`§4.1`): the same four tiers,
but with tiers 2 and 4 reading "contains the path as a substring".  Declared
only to be compared with `resolvePath`, which is translated from the code. -/
def specResolvePath (df : DF) (path : String) : List Row :=
  let rows1 := tierCatEq df path
  let rows2 :=
    if rows1.isEmpty then
      df.rows.filter (fun r =>
        match r.category with
        | .s c => substrContains c path
        | _ => false)
    else rows1
  let rows3 := if rows2.isEmpty then tierSubEq df path else rows2
  if rows3.isEmpty then
    df.rows.filter (fun r =>
      match r.subCategory with
      | .s c => substrContains c path
      | _ => false)
  else rows3

/-! ## Insight extraction: `extract_research_insights_from_docs` -/

/-- The title resolution of `extract_research_insights_from_docs`: the
document's value in the first row with `Main Category == 'meta_data'` and
`Category == 'title'`; when no such row exists (`title is None`), the value in
the first row with `Category == 'title'`; `none` when neither row exists. -/
def docTitle (df : DF) (doc : String) : Option PVal :=
  let metaTitleRows := df.rows.filter (fun r =>
    decide (r.mainCategory = PVal.s "meta_data") && decide (r.category = PVal.s "title"))
  match metaTitleRows.head? with
  | some r => some (r.cell doc)
  | none => (df.catRows "title").head?.map (fun r => r.cell doc)

/-- `doc_identifier = title if title and not pd.isna(title) else doc_col`:
the resolved title when it is truthy and not NaN, the column id otherwise. -/
def docIdentifier (df : DF) (doc : String) : String :=
  match docTitle df doc with
  | some v => if v.truthy && !v.isna then v.toStr else doc
  | none => doc

/-- The per-path value list: `subcategory_rows[doc_col].dropna().tolist()`. -/
def pathValues (df : DF) (doc : String) (path : String) : List PVal :=
  (resolvePath df path).filterMap (fun r =>
    if (r.cell doc).isna then none else some (r.cell doc))

/-- The per-topic insight dict of one document: a path contributes its full
`dropna` value list when that list is nonempty and some element is non-blank
after `str(...).strip()`. -/
def topicInsights (df : DF) (doc : String) (paths : List String) :
    List (String × List PVal) :=
  paths.foldl (fun acc path =>
    if !(pathValues df doc path).isEmpty &&
        (pathValues df doc path).any (fun v => pyStrip v.toStr ≠ "") then
      dictInsert acc path (pathValues df doc path)
    else acc) []

/-- The per-document insight dict: only topics with at least one contributing
path are kept. -/
def docInsights (df : DF) (doc : String) (cats : List (String × List String)) :
    List (String × List (String × List PVal)) :=
  cats.foldl (fun acc tp =>
    if !(topicInsights df doc tp.2).isEmpty then
      dictInsert acc tp.1 (topicInsights df doc tp.2)
    else acc) []

/-- Model of `extract_research_insights_from_docs`: a dict keyed by
`doc_identifier`, holding each matching document's nonempty insight dict;
a later document with the same identifier overwrites an earlier one. -/
def extractResearchInsights (df : DF) (matchingDocs : List String)
    (cats : List (String × List String)) :
    List (String × List (String × List (String × List PVal))) :=
  matchingDocs.foldl (fun acc doc =>
    if !(docInsights df doc cats).isEmpty then
      dictInsert acc (docIdentifier df doc) (docInsights df doc cats)
    else acc) []

/-! ## Vector retrieval engine: `RAG_architecture.py`

Embeddings are abstracted to integer vectors with an exact inner product
(`faiss.IndexFlatIP` over unit floats is out of scope of the claims settled
here; only result counts, ordering structure and the initialization guard
matter). -/

/-- An embedding vector. -/
def Vec : Type := List Int

/-- Inner product of two vectors. -/
def dotProduct (a b : Vec) : Int :=
  (List.zipWith (· * ·) a b).foldl (· + ·) 0

/-- Structured metadata of one passage (`page['metadata']`, a dict read with
`.get(key)`). -/
structure MetaInfo where
  publicationYear : Option String
  authors : Option String
  journal : Option String
  doi : Option String
deriving DecidableEq

/-- One entry of `page_metadata`: a page of a source document. -/
structure PageMeta where
  pdfName : String
  pageNumber : Nat
  content : String
  metadata : MetaInfo

/-- The `RAGSystem` state: the flag, the optional FAISS index (abstracted to
its stored embedding vectors in insertion order) and the passage metadata
list. -/
structure RAGSystem where
  isInitialized : Bool
  faissIndex : Option (List Vec)
  pageMetadata : List PageMeta

/-- The score FAISS reports for a padding slot (the lowest representable
inner-product value; its exact magnitude is irrelevant here). -/
def faissPadScore : Int := -(2 ^ 62)

/-- Score-then-insertion-order ranking of FAISS results: higher inner product
first, ties by lower index. -/
def faissRankLE (a b : Int × Int) : Prop :=
  b.1 < a.1 ∨ (a.1 = b.1 ∧ a.2 ≤ b.2)

instance : DecidableRel faissRankLE := fun a b =>
  inferInstanceAs (Decidable (b.1 < a.1 ∨ (a.1 = b.1 ∧ a.2 ≤ b.2)))

/-- Model of `faiss_index.search(query, k)` for a flat inner-product index:
the `(score, label)` pairs of all stored vectors ranked by score (descending,
ties by insertion order), truncated to `k`, and — as FAISS documents — padded
to exactly `k` entries with label `-1` when the index holds fewer than `k`
vectors. -/
def faissSearch (stored : List Vec) (q : Vec) (k : Nat) : List (Int × Int) :=
  let scored := stored.enum.map (fun p => (dotProduct q p.2, (p.1 : Int)))
  let ranked := (scored.insertionSort faissRankLE).take k
  ranked ++ List.replicate (k - ranked.length) (faissPadScore, -1)

/-- Python list indexing `l[i]`, including negative indices from the end;
`none` models an `IndexError`. -/
def pyGetList {α : Type} (l : List α) (i : Int) : Option α :=
  if 0 ≤ i then l.get? i.toNat
  else if -(l.length : Int) ≤ i then l.get? (l.length - (-i).toNat)
  else none

/-- One entry of the result list built by `search_documents_faiss`. -/
structure SearchResult where
  rank : Nat
  score : Int
  pdfName : String
  pageNumber : Nat
  content : String
  fullContent : String
  metadata : MetaInfo

/-- The display excerpt: the first `n` characters plus an ellipsis marker when
truncated. -/
def excerptOf (n : Nat) (content : String) : String :=
  if n < content.length then (content.take n) ++ "..." else content

/-- Model of `search_documents_faiss`: `[]` when the system is not initialized
or has no index (the uninitialized condition is only printed, not raised);
otherwise the FAISS `(score, index)` pairs are turned into results, keeping a
pair only when `idx < len(page_metadata)` — a comparison the padding label
`-1` also passes, upon which Python list indexing reads the *last* metadata
entry.  The query string and the external embedding call are abstracted by the
query embedding `qEmb`. -/
def searchDocumentsFaiss (rs : RAGSystem) (qEmb : Vec) (topK : Nat) : List SearchResult :=
  match rs.faissIndex with
  | none => []
  | some stored =>
      if rs.isInitialized then
        let pairs := faissSearch stored qEmb topK
        pairs.enum.filterMap (fun ip =>
          let idx := ip.2.2
          if idx < (rs.pageMetadata.length : Int) then
            (pyGetList rs.pageMetadata idx).map (fun page =>
              { rank := ip.1 + 1
                score := ip.2.1
                pdfName := page.pdfName
                pageNumber := page.pageNumber
                content := excerptOf 500 page.content
                fullContent := page.content
                metadata := page.metadata })
          else none)
      else []

/-- One formatted entry of `get_relevant_documents`. -/
structure FormattedResult where
  title : String
  excerpt : String
  score : Int
  year : String
  source : String
  pageNumber : Nat
  authors : String
  journal : String
  doi : String
  fullContent : String

/-- Model of `get_relevant_documents`: `[]` when the system is not initialized
or no API key is in the session; otherwise each FAISS search result formatted
for display. -/
def getRelevantDocuments (rs : RAGSystem) (apiKey : String) (qEmb : Vec) (topK : Nat) :
    List FormattedResult :=
  if !rs.isInitialized then []
  else if apiKey = "" then []
  else
    (searchDocumentsFaiss rs qEmb topK).map (fun r =>
      { title := r.pdfName ++ " - Page " ++ toString r.pageNumber
        excerpt := excerptOf 300 r.fullContent
        score := r.score
        year := (r.metadata.publicationYear).getD "N/A"
        source := r.pdfName
        pageNumber := r.pageNumber
        authors := (r.metadata.authors).getD "N/A"
        journal := (r.metadata.journal).getD "N/A"
        doi := (r.metadata.doi).getD "N/A"
        fullContent := r.fullContent })

/-! ## Helper constructions for concrete corpora -/

/-- Build a row from a finite cell assignment; unlisted documents hold NaN. -/
def mkRow (mc c sc : PVal) (cells : List (String × PVal)) : Row :=
  { mainCategory := mc
    category := c
    subCategory := sc
    cell := fun d => ((cells.find? (fun p => decide (p.1 = d))).map Prod.snd).getD PVal.na }

/-! ## Helper lemmas on the facet checks -/

/-- A present category has a first matching row. -/
theorem hasCat_head (df : DF) (c : String) (h : df.hasCat c = true) :
    ∃ r, (df.catRows c).head? = some r := by
  unfold DF.hasCat at h
  unfold DF.catRows
  rcases List.any_eq_true.mp h with ⟨x, hx, hpx⟩
  have hmem : x ∈ df.rows.filter (fun r => decide (r.category = PVal.s c)) :=
    List.mem_filter.mpr ⟨hx, hpx⟩
  cases hl : df.rows.filter (fun r => decide (r.category = PVal.s c)) with
  | nil => rw [hl] at hmem; simp at hmem
  | cons a l => exact ⟨a, rfl⟩

/-- A present subcategory has a first matching row. -/
theorem hasSub_head (df : DF) (c : String) (h : df.hasSub c = true) :
    ∃ r, (df.subRows c).head? = some r := by
  unfold DF.hasSub at h
  unfold DF.subRows
  rcases List.any_eq_true.mp h with ⟨x, hx, hpx⟩
  have hmem : x ∈ df.rows.filter (fun r => decide (r.subCategory = PVal.s c)) :=
    List.mem_filter.mpr ⟨hx, hpx⟩
  cases hl : df.rows.filter (fun r => decide (r.subCategory = PVal.s c)) with
  | nil => rw [hl] at hmem; simp at hmem
  | cons a l => exact ⟨a, rfl⟩

/-- The inner truthiness-parse-range test shared by the two range facets. -/
theorem rangeInner_iff (v : PVal) (lo hi : Int) :
    rangeInner v lo hi = true ↔
      (v.truthy = false ∨ ∃ n, v.parseIF = some n ∧ lo ≤ n ∧ n ≤ hi) := by
  unfold rangeInner
  cases ht : v.truthy
  · simp
  · simp only [if_true, Bool.true_eq_false, false_or]
    cases hp : v.parseIF with
    | none => simp
    | some y =>
        simp only [Option.some.injEq]
        constructor
        · intro hb
          simp only [Bool.and_eq_true, decide_eq_true_eq] at hb
          exact ⟨y, rfl, hb.1, hb.2⟩
        · rintro ⟨n, hn, h1, h2⟩
          subst hn
          simp only [Bool.and_eq_true, decide_eq_true_eq]
          exact ⟨h1, h2⟩

/-- The full shape of a range-facet check: gate on presence, then the
truthiness-parse-range test on the first matching row's cell. -/
theorem rangeCheck_iff (present : Bool) (firstRow : Option Row) (lo hi : Int) (d : String)
    (hpres : present = true → ∃ r, firstRow = some r) :
    rangeCheck present firstRow lo hi d = true ↔
      (present = false ∨
       ∃ r, firstRow = some r ∧
         ((r.cell d).truthy = false ∨
          ∃ n, (r.cell d).parseIF = some n ∧ lo ≤ n ∧ n ≤ hi)) := by
  cases present
  · simp [rangeCheck]
  · obtain ⟨r0, hr0⟩ := hpres rfl
    subst hr0
    unfold rangeCheck
    constructor
    · intro hx
      exact Or.inr ⟨r0, rfl, (rangeInner_iff (r0.cell d) lo hi).mp hx⟩
    · rintro (hc | ⟨r2, hr2, hx⟩)
      · exact absurd hc (by simp)
      · injection hr2 with hr2
        subst hr2
        exact (rangeInner_iff (r0.cell d) lo hi).mpr hx

/-- The year check passes iff the category is absent, or the stored value is
falsy, or it parses into the inclusive range. -/
theorem yearOK_iff (df : DF) (range : Int × Int) (d : String) :
    yearOK df range d = true ↔
      (df.hasCat "publication_year" = false ∨
       ∃ r, (df.catRows "publication_year").head? = some r ∧
         ((r.cell d).truthy = false ∨
          ∃ n, (r.cell d).parseIF = some n ∧ range.1 ≤ n ∧ n ≤ range.2)) :=
  rangeCheck_iff (df.hasCat "publication_year") (df.catRows "publication_year").head?
    range.1 range.2 d (hasCat_head df "publication_year")

/-- The enabled sample-size check passes iff the subcategory is absent, or
the stored value is falsy, or it parses into the inclusive range. -/
theorem sizeOK_some_iff (df : DF) (range : Int × Int) (d : String) :
    sizeOK df (some range) d = true ↔
      (df.hasSub "total_size" = false ∨
       ∃ r, (df.subRows "total_size").head? = some r ∧
         ((r.cell d).truthy = false ∨
          ∃ n, (r.cell d).parseIF = some n ∧ range.1 ≤ n ∧ n ≤ range.2)) :=
  rangeCheck_iff (df.hasSub "total_size") (df.subRows "total_size").head?
    range.1 range.2 d (hasSub_head df "total_size")

/-! ## Claim C4: range facet matching -/

/-- A one-document corpus whose publication year is stored as the empty
string: truthy-gate falsy, so the year check is skipped. -/
def exDF4 : DF :=
  { rows := [mkRow (PVal.s "meta_data") (PVal.s "publication_year") PVal.na [("d1", PVal.s "")]]
    docCols := ["d1"]
    hasSubCol := true }

/-- C4 counterexample: with the year facet enabled on `[2020, 2022]`, the
document whose stored year is the empty string matches the facet although the
value does not parse as a number — the claimed "matches iff parses and in
range" biconditional fails. -/
theorem C4_counterexample :
    yearOK exDF4 (2020, 2022) "d1" = true ∧ (PVal.s "").parseIF = none := by
  constructor
  · rfl
  · rfl

/-- C4 (amended): a document matches an enabled range facet iff the attribute
row is absent, or its stored value is falsy (missing/empty/zero), or the value
parses as a number within `[low, high]` inclusive; a disabled sample-size
facet always matches.  A truthy unparseable value is a non-match. -/
theorem C4_range_facet_characterization (df : DF) (range : Int × Int) (d : String) :
    sizeOK df none d = true ∧
    (yearOK df range d = true ↔
      (df.hasCat "publication_year" = false ∨
       ∃ r, (df.catRows "publication_year").head? = some r ∧
         ((r.cell d).truthy = false ∨
          ∃ n, (r.cell d).parseIF = some n ∧ range.1 ≤ n ∧ n ≤ range.2))) ∧
    (sizeOK df (some range) d = true ↔
      (df.hasSub "total_size" = false ∨
       ∃ r, (df.subRows "total_size").head? = some r ∧
         ((r.cell d).truthy = false ∨
          ∃ n, (r.cell d).parseIF = some n ∧ range.1 ≤ n ∧ n ≤ range.2))) :=
  ⟨rfl, yearOK_iff df range d, sizeOK_some_iff df range d⟩

/-! ## Claim C5: all facets disabled / `All` -/

/-- The categorical checks are vacuous when the selection is exactly
`["All"]`. -/
theorem catSelOK_all (present : Bool) (firstRow : Option Row) (d : String) :
    catSelOK ["All"] present firstRow d = true := by
  unfold catSelOK
  simp

/-- C5 (amended): with the sample-size facet disabled and all three
categorical facets at `["All"]`, `count_matching_documents` returns the full
document-column set provided every document's stored publication year is
falsy or parses into the selected year range (in particular whenever the range
spans all parsed years).  Documents with a truthy unparseable year are
excluded even under the sentinel facet set. -/
theorem C5_sentinel_facets_full_set (df : DF) (lo hi : Int)
    (hyear : ∀ d ∈ df.docCols, ∀ r, (df.catRows "publication_year").head? = some r →
      (r.cell d).truthy = true → ∃ n, (r.cell d).parseIF = some n ∧ lo ≤ n ∧ n ≤ hi) :
    countMatchingDocuments df (lo, hi) none ["All"] ["All"] ["All"] = df.docCols := by
  unfold countMatchingDocuments
  rw [List.filter_eq_self]
  intro d hd
  unfold matchesAll
  simp only [Bool.and_eq_true]
  refine ⟨⟨⟨⟨?_, rfl⟩, catSelOK_all _ _ _⟩, catSelOK_all _ _ _⟩, catSelOK_all _ _ _⟩
  rw [yearOK_iff]
  cases hc : df.hasCat "publication_year"
  · exact Or.inl rfl
  · obtain ⟨r, hr⟩ := hasCat_head df _ hc
    refine Or.inr ⟨r, hr, ?_⟩
    cases ht : (r.cell d).truthy
    · exact Or.inl rfl
    · exact Or.inr (hyear d hd r hr ht)

/-- A one-document corpus with a parseable year, instantiating C5's amended
theorem. -/
def exDF5 : DF :=
  { rows := [mkRow (PVal.s "meta_data") (PVal.s "publication_year") PVal.na [("dW", PVal.s "2021")]]
    docCols := ["dW"]
    hasSubCol := true }

/-- C5 witness: the amended theorem applied to `exDF5` with range
`[2020, 2022]`. -/
theorem C5_sentinel_facets_full_set_witness :
    countMatchingDocuments exDF5 (2020, 2022) none ["All"] ["All"] ["All"] = exDF5.docCols :=
  C5_sentinel_facets_full_set exDF5 2020 2022 (by
    intro d hd r hr ht
    have hd1 : d = "dW" := by
      simpa [exDF5] using hd
    subst hd1
    have hrow : (DF.catRows exDF5 "publication_year").head? =
        some (mkRow (PVal.s "meta_data") (PVal.s "publication_year") PVal.na
          [("dW", PVal.s "2021")]) := by
      rfl
    rw [hrow] at hr
    injection hr with hr
    subst hr
    exact ⟨2021, by decide, by decide, by decide⟩)

/-- A two-document corpus: one year parses, the other is the truthy
unparseable string `"N/A"`. -/
def exDF5c : DF :=
  { rows := [mkRow (PVal.s "meta_data") (PVal.s "publication_year") PVal.na
      [("d1", PVal.s "2020"), ("d2", PVal.s "N/A")]]
    docCols := ["d1", "d2"]
    hasSubCol := true }

/-- C5 counterexample: in `exDF5c` the observed parsed years are exactly
`[2020]`, yet with the year range spanning that full observed range, the
sample facet disabled and every categorical facet `["All"]`, the result drops
`"d2"` (year `"N/A"`) and is not the full document-column set. -/
theorem C5_counterexample :
    getPublicationYears exDF5c = [2020] ∧
    countMatchingDocuments exDF5c (2020, 2020) none ["All"] ["All"] ["All"] = ["d1"] ∧
    exDF5c.docCols = ["d1", "d2"] := by
  refine ⟨by decide, by decide, rfl⟩

/-! ## Claim C6: anti-monotonicity of the facet filter -/

/-- `[low2, high2] ⊆ [low1, high1]`: the second range is at least as narrow. -/
def rangeStronger (r1 r2 : Int × Int) : Prop :=
  r1.1 ≤ r2.1 ∧ r2.2 ≤ r1.2

/-- The second sample-size facet has every constraint of the first plus more:
it is enabled whenever the first is, with a range at least as narrow. -/
def sampleStronger : Option (Int × Int) → Option (Int × Int) → Prop
  | none, _ => True
  | some _, none => False
  | some r1, some r2 => rangeStronger r1 r2

/-- The second categorical selection is at least as constraining as the first:
either the first imposes nothing (empty or containing `"All"`), or the second
is a nonempty `All`-free subset of the first. -/
def catStronger (s1 s2 : List String) : Prop :=
  s1 = [] ∨ "All" ∈ s1 ∨ (s2 ≠ [] ∧ "All" ∉ s2 ∧ s2 ⊆ s1)

/-- Widening a range preserves a passing range check. -/
theorem rangeCheck_mono (present : Bool) (firstRow : Option Row) (d : String)
    {lo1 hi1 lo2 hi2 : Int} (hpres : present = true → ∃ r, firstRow = some r)
    (hlo : lo1 ≤ lo2) (hhi : hi2 ≤ hi1)
    (h : rangeCheck present firstRow lo2 hi2 d = true) :
    rangeCheck present firstRow lo1 hi1 d = true := by
  rw [rangeCheck_iff _ _ _ _ _ hpres] at h ⊢
  rcases h with hp | ⟨r, hr, hin⟩
  · exact Or.inl hp
  · refine Or.inr ⟨r, hr, ?_⟩
    rcases hin with ht | ⟨n, hn, h1, h2⟩
    · exact Or.inl ht
    · exact Or.inr ⟨n, hn, le_trans hlo h1, le_trans h2 hhi⟩

/-- Widening the year range preserves a passing year check. -/
theorem yearOK_mono (df : DF) {y1 y2 : Int × Int} (d : String)
    (h : rangeStronger y1 y2) (hm : yearOK df y2 d = true) :
    yearOK df y1 d = true :=
  rangeCheck_mono _ _ _ (hasCat_head df "publication_year") h.1 h.2 hm

/-- Relaxing the sample-size facet preserves a passing sample-size check. -/
theorem sizeOK_mono (df : DF) {sz1 sz2 : Option (Int × Int)} (d : String)
    (h : sampleStronger sz1 sz2) (hm : sizeOK df sz2 d = true) :
    sizeOK df sz1 d = true := by
  cases sz1 with
  | none => rfl
  | some r1 =>
      cases sz2 with
      | none => exact absurd h (by simp [sampleStronger])
      | some r2 =>
          exact rangeCheck_mono _ _ _ (hasSub_head df "total_size") h.1 h.2 hm

/-- A categorical check whose gate is down (empty selection, `"All"` selected,
or absent row) passes every document. -/
theorem catSelOK_of_gate (s : List String) (present : Bool) (firstRow : Option Row)
    (d : String) (h : (!s.isEmpty && !s.contains "All" && present) = false) :
    catSelOK s present firstRow d = true := by
  unfold catSelOK
  rw [h]
  simp

/-- Enlarging a categorical selection (or replacing it by an inactive one)
preserves a passing categorical check. -/
theorem catSelOK_mono {s1 s2 : List String} (present : Bool) (firstRow : Option Row)
    (d : String) (h : catStronger s1 s2) (hm : catSelOK s2 present firstRow d = true) :
    catSelOK s1 present firstRow d = true := by
  rcases h with h1 | h1 | ⟨hne, hnall, hsub⟩
  · subst h1
    exact catSelOK_of_gate _ _ _ _ (by simp)
  · have hc : s1.contains "All" = true := by
      simpa using h1
    exact catSelOK_of_gate _ _ _ _ (by rw [hc]; simp)
  · have h2e : s2.isEmpty = false := by
      cases s2 with
      | nil => exact absurd rfl hne
      | cons a l => rfl
    have h2all : s2.contains "All" = false := by
      cases hca : s2.contains "All"
      · rfl
      · exact absurd (by simpa using hca) hnall
    cases hP : present
    · exact catSelOK_of_gate _ _ _ _ (by simp)
    · cases h1all : s1.contains "All"
      · have h1e : s1.isEmpty = false := by
          cases hs1 : s1 with
          | nil =>
              subst hs1
              obtain ⟨a, ha⟩ := List.exists_mem_of_ne_nil s2 hne
              exact absurd (hsub ha) (by simp)
          | cons a l => rfl
        cases firstRow with
        | none => simp [catSelOK]
        | some r =>
            cases ht : (r.cell d).truthy
            · simp [catSelOK, ht]
            · have hex : ∃ x ∈ s2, (r.cell d).toStr = baseOf x := by
                unfold catSelOK at hm
                rcases (by simpa [hP, h2e, h2all, ht] using hm :
                    "All" ∈ s2 ∨ ∃ x ∈ s2, (r.cell d).toStr = baseOf x) with hAll | hex
                · exact absurd hAll hnall
                · exact hex
              obtain ⟨sel, hsel, heq⟩ := hex
              unfold catSelOK
              simp only [hP, ht, h1e, h1all, Bool.not_false, Bool.and_self, Bool.and_true,
                Bool.true_and, if_true, List.any_eq_true, decide_eq_true_eq]
              first
              | exact Or.inr ⟨sel, hsub hsel, heq⟩
              | exact ⟨sel, hsub hsel, heq⟩
      · exact catSelOK_of_gate _ _ _ _ (by rw [h1all]; simp)

/-- C6 (amended): the filter is anti-monotone in the facet set — adding the
sample facet, narrowing a range, or shrinking a categorical selection to a
*nonempty* `All`-free subset can only shrink the matching document set.  (An
*empty* categorical selection is falsy in the code and imposes no constraint,
which is what the counterexample exploits.) -/
theorem C6_filter_antimonotone (df : DF) (y1 y2 : Int × Int)
    (sz1 sz2 : Option (Int × Int)) (p1 p2 f1 f2 g1 g2 : List String)
    (hy : rangeStronger y1 y2) (hs : sampleStronger sz1 sz2)
    (hp : catStronger p1 p2) (hf : catStronger f1 f2) (hg : catStronger g1 g2) :
    countMatchingDocuments df y2 sz2 p2 f2 g2 ⊆ countMatchingDocuments df y1 sz1 p1 f1 g1 := by
  intro d hd
  unfold countMatchingDocuments at hd ⊢
  rw [List.mem_filter] at hd ⊢
  refine ⟨hd.1, ?_⟩
  have hm := hd.2
  unfold matchesAll at hm ⊢
  simp only [Bool.and_eq_true] at hm ⊢
  obtain ⟨⟨⟨⟨hY, hS⟩, hPu⟩, hFu⟩, hDe⟩ := hm
  exact ⟨⟨⟨⟨yearOK_mono df d hy hY, sizeOK_mono df d hs hS⟩,
    catSelOK_mono _ _ _ hp hPu⟩, catSelOK_mono _ _ _ hf hFu⟩,
    catSelOK_mono _ _ _ hg hDe⟩

/-- A one-document corpus with only a year row, for the C6 witness. -/
def exDF6 : DF :=
  { rows := [mkRow (PVal.s "meta_data") (PVal.s "publication_year") PVal.na [("d1", PVal.s "2021")]]
    docCols := ["d1"]
    hasSubCol := true }

/-- C6 witness: the amended theorem at a concrete corpus, narrowing the year
range from `[2015, 2025]` to `[2020, 2022]`. -/
theorem C6_filter_antimonotone_witness :
    countMatchingDocuments exDF6 (2020, 2022) none ["All"] ["All"] ["All"] ⊆
      countMatchingDocuments exDF6 (2015, 2025) none ["All"] ["All"] ["All"] :=
  C6_filter_antimonotone exDF6 (2015, 2025) (2020, 2022) none none
    ["All"] ["All"] ["All"] ["All"] ["All"] ["All"]
    ⟨by decide, by decide⟩ trivial
    (Or.inr (Or.inl (by decide))) (Or.inr (Or.inl (by decide)))
    (Or.inr (Or.inl (by decide)))

/-- A one-document corpus with only a study-design row, design `"Y"`. -/
def exDF6c : DF :=
  { rows := [mkRow (PVal.s "study_design") (PVal.s "study_design") (PVal.s "primary_type")
      [("d1", PVal.s "Y")]]
    docCols := ["d1"]
    hasSubCol := true }

/-- C6 counterexample: shrinking the study-design selection from `["X"]` to
its subset `[]` *grows* the matching set — the empty selection is falsy and
imposes no constraint, so the claimed subset inclusion fails. -/
theorem C6_counterexample :
    ([] : List String) ⊆ ["X"] ∧
    countMatchingDocuments exDF6c (2020, 2021) none ["All"] ["All"] [] = ["d1"] ∧
    countMatchingDocuments exDF6c (2020, 2021) none ["All"] ["All"] ["X"] = [] ∧
    ¬ countMatchingDocuments exDF6c (2020, 2021) none ["All"] ["All"] [] ⊆
        countMatchingDocuments exDF6c (2020, 2021) none ["All"] ["All"] ["X"] := by
  refine ⟨List.nil_subset _, by decide, by decide, fun h => ?_⟩
  have hd : "d1" ∈ countMatchingDocuments exDF6c (2020, 2021) none ["All"] ["All"] [] := by
    decide
  exact absurd (h hd) (by decide)

/-! ## Claims C8 and C9: the sidebar cascade and selection revalidation -/

/-- A list's optional head, when present, is a member. -/
theorem head?_mem {α : Type} {l : List α} {a : α} (h : l.head? = some a) : a ∈ l := by
  cases l with
  | nil => exact Option.noConfusion h
  | cons x xs =>
      injection h with h
      subst h
      exact List.mem_cons_self x xs

/-- With the sample facet off and every categorical facet `["All"]`,
`count_matching_documents` filters by the year predicate alone. -/
theorem countMatching_reduce1 (df : DF) (yr : Int × Int) :
    countMatchingDocuments df yr none ["All"] ["All"] ["All"] =
      df.docCols.filter (fun d => yearOK df yr d) := by
  unfold countMatchingDocuments
  apply List.filter_congr
  intro d _
  unfold matchesAll pubOK fundOK designOK
  rw [catSelOK_all, catSelOK_all, catSelOK_all]
  rw [show sizeOK df none d = true from rfl]
  simp

/-- With the sample facet off and the last two categorical facets `["All"]`,
`count_matching_documents` filters by the year and publication-type
predicates. -/
theorem countMatching_reduce2 (df : DF) (yr : Int × Int) (p : List String) :
    countMatchingDocuments df yr none p ["All"] ["All"] =
      df.docCols.filter (fun d => yearOK df yr d && pubOK df p d) := by
  unfold countMatchingDocuments
  apply List.filter_congr
  intro d _
  unfold matchesAll pubOK fundOK designOK
  rw [catSelOK_all, catSelOK_all]
  rw [show sizeOK df none d = true from rfl]
  simp

/-- With the sample facet off and the study-design facet `["All"]`,
`count_matching_documents` filters by the year, publication-type and
funding-source predicates. -/
theorem countMatching_reduce3 (df : DF) (yr : Int × Int) (p f : List String) :
    countMatchingDocuments df yr none p f ["All"] =
      df.docCols.filter (fun d => yearOK df yr d && pubOK df p d && fundOK df f d) := by
  unfold countMatchingDocuments
  apply List.filter_congr
  intro d _
  unfold matchesAll pubOK fundOK designOK
  rw [catSelOK_all]
  rw [show sizeOK df none d = true from rfl]
  simp

instance : IsTotal (String × Nat) countGE :=
  ⟨fun a b => Nat.le_total b.2 a.2⟩

instance : IsTrans (String × Nat) countGE :=
  ⟨fun _ _ _ hab hbc => Nat.le_trans hbc hab⟩

/-- The counted facet values are sorted by non-increasing count. -/
theorem sorted_uniqueValueCounts (df : DF) (cn sn : Option String) (docs : List String) :
    List.Sorted countGE (uniqueValueCounts df cn sn docs) := by
  unfold uniqueValueCounts
  split
  · exact List.sorted_nil
  · exact List.sorted_insertionSort countGE _

/-- Every facet option list starts with the sentinel `"All"`. -/
theorem getUniqueValuesFiltered_head (df : DF) (cn sn : Option String) (docs : List String) :
    (getUniqueValuesFiltered df cn sn docs).head? = some "All" := by
  unfold getUniqueValuesFiltered
  split
  · rfl
  · rfl

/-- C8 (confirmed): the sidebar cascade computes each categorical facet's
option list from exactly the documents that passed the earlier facets in pick
order — publication-type options from the year-filtered set, funding-source
options from the year+publication-type-filtered set (with the *revalidated*
publication-type selection), study-design options from the
year+publication-type+funding-filtered set — and every option list is `"All"`
followed by the stored values with counts sorted by count descending. -/
theorem C8_cascading_option_lists (df : DF) (yearRange : Int × Int)
    (pubSel0 fundSel0 designSel0 : List String) :
    (sidebarCascade df yearRange pubSel0 fundSel0 designSel0).pubOptions =
      getUniqueValuesFiltered df (some "publication_type") none
        (df.docCols.filter (fun d => yearOK df yearRange d)) ∧
    (sidebarCascade df yearRange pubSel0 fundSel0 designSel0).fundOptions =
      getUniqueValuesFiltered df none (some "type")
        (df.docCols.filter (fun d => yearOK df yearRange d &&
          pubOK df (sidebarCascade df yearRange pubSel0 fundSel0 designSel0).pubSelection d)) ∧
    (sidebarCascade df yearRange pubSel0 fundSel0 designSel0).designOptions =
      getUniqueValuesFiltered df none (some "primary_type")
        (df.docCols.filter (fun d => yearOK df yearRange d &&
          pubOK df (sidebarCascade df yearRange pubSel0 fundSel0 designSel0).pubSelection d &&
          fundOK df (sidebarCascade df yearRange pubSel0 fundSel0 designSel0).fundSelection d)) ∧
    (sidebarCascade df yearRange pubSel0 fundSel0 designSel0).pubOptions.head? = some "All" ∧
    (sidebarCascade df yearRange pubSel0 fundSel0 designSel0).fundOptions.head? = some "All" ∧
    (sidebarCascade df yearRange pubSel0 fundSel0 designSel0).designOptions.head? = some "All" ∧
    List.Sorted countGE (uniqueValueCounts df (some "publication_type") none
      (df.docCols.filter (fun d => yearOK df yearRange d))) ∧
    List.Sorted countGE (uniqueValueCounts df none (some "type")
      (df.docCols.filter (fun d => yearOK df yearRange d &&
        pubOK df (sidebarCascade df yearRange pubSel0 fundSel0 designSel0).pubSelection d))) ∧
    List.Sorted countGE (uniqueValueCounts df none (some "primary_type")
      (df.docCols.filter (fun d => yearOK df yearRange d &&
        pubOK df (sidebarCascade df yearRange pubSel0 fundSel0 designSel0).pubSelection d &&
        fundOK df (sidebarCascade df yearRange pubSel0 fundSel0 designSel0).fundSelection d))) := by
  refine ⟨?_, ?_, ?_, ?_, ?_, ?_, ?_, ?_, ?_⟩
  · show getUniqueValuesFiltered df (some "publication_type") none
        (countMatchingDocuments df yearRange none ["All"] ["All"] ["All"]) = _
    rw [countMatching_reduce1]
  · show getUniqueValuesFiltered df none (some "type")
        (countMatchingDocuments df yearRange none
          (sidebarCascade df yearRange pubSel0 fundSel0 designSel0).pubSelection
          ["All"] ["All"]) = _
    rw [countMatching_reduce2]
  · show getUniqueValuesFiltered df none (some "primary_type")
        (countMatchingDocuments df yearRange none
          (sidebarCascade df yearRange pubSel0 fundSel0 designSel0).pubSelection
          (sidebarCascade df yearRange pubSel0 fundSel0 designSel0).fundSelection
          ["All"]) = _
    rw [countMatching_reduce3]
  · exact getUniqueValuesFiltered_head df _ _ _
  · exact getUniqueValuesFiltered_head df _ _ _
  · exact getUniqueValuesFiltered_head df _ _ _
  · exact sorted_uniqueValueCounts df _ _ _
  · exact sorted_uniqueValueCounts df _ _ _
  · exact sorted_uniqueValueCounts df _ _ _

/-- C9 (confirmed): after a recompute, the revalidated selection is never
empty, every kept value is the sentinel `"All"` or one of the fresh options,
and every previously selected non-`All` value whose base is absent from the
fresh option list is dropped. -/
theorem C9_selection_revalidation (options selection : List String) :
    revalidateSelection options selection ≠ [] ∧
    (∀ v ∈ revalidateSelection options selection, v = "All" ∨ v ∈ options) ∧
    (∀ s ∈ selection, s ≠ "All" →
      baseOf s ∉ (options.filter (fun o => decide (o ≠ "All"))).map baseOf →
      s ∉ revalidateSelection options selection) ∧
    ((selection.map baseOf).filterMap (revalidOne options) = [] →
      revalidateSelection options selection = ["All"]) := by
  refine ⟨?_, ?_, ?_, ?_⟩
  · unfold revalidateSelection
    split
    · simp
    · rename_i hvalid
      intro hnil
      exact hvalid (by rw [hnil]; rfl)
  · intro v hv
    unfold revalidateSelection at hv
    split at hv
    · simp only [List.mem_singleton] at hv
      exact Or.inl hv
    · rw [List.mem_filterMap] at hv
      obtain ⟨a, _, hfa⟩ := hv
      unfold revalidOne at hfa
      split at hfa
      · split at hfa
        · injection hfa with h
          exact Or.inl h.symm
        · exact Or.inr (List.mem_of_mem_filter (head?_mem hfa))
      · exact Option.noConfusion hfa
  · intro s _ hsAll hbase hmem
    unfold revalidateSelection at hmem
    split at hmem
    · simp only [List.mem_singleton] at hmem
      exact hsAll hmem
    · rw [List.mem_filterMap] at hmem
      obtain ⟨a, _, hfa⟩ := hmem
      unfold revalidOne at hfa
      split at hfa
      · rename_i hcond
        split at hfa
        · injection hfa with h
          exact hsAll h.symm
        · rename_i hANe
          have hsf : s ∈ options.filter (fun opt => decide (baseOf opt = a)) :=
            head?_mem hfa
          have hbs : baseOf s = a := by
            have := List.of_mem_filter hsf
            simpa using this
          have hmemBase : a ∈ revalidOptions options ∨ a = "All" := by
            simpa using hcond
          rcases hmemBase with hmb | hmb
          · unfold revalidOptions at hmb
            rcases List.mem_cons.mp hmb with h1 | h1
            · exact hANe h1
            · exact hbase (hbs ▸ h1)
          · exact hANe hmb
      · exact Option.noConfusion hfa
  · intro h
    unfold revalidateSelection
    rw [h]
    rfl

/-- C9 witness: revalidation at a concrete option list and selection — the
kept value is replaced by the fresh option, the vanished one is dropped. -/
theorem C9_selection_revalidation_witness :
    revalidateSelection ["All", "Industry \x7b2\x7d"] ["Industry \x7b5\x7d", "Gov \x7b1\x7d"] ≠ [] ∧
    "Gov \x7b1\x7d" ∉
      revalidateSelection ["All", "Industry \x7b2\x7d"] ["Industry \x7b5\x7d", "Gov \x7b1\x7d"] :=
  ⟨(C9_selection_revalidation ["All", "Industry \x7b2\x7d"]
      ["Industry \x7b5\x7d", "Gov \x7b1\x7d"]).1,
   (C9_selection_revalidation ["All", "Industry \x7b2\x7d"]
      ["Industry \x7b5\x7d", "Gov \x7b1\x7d"]).2.2.1 "Gov \x7b1\x7d"
      (by decide) (by decide) (by decide)⟩

/-! ## Claim C7: four-tier path resolution -/

/-- The first non-empty entry of a list of row sets (`[]` when all are
empty). -/
def firstNonEmptyTier (tiers : List (List Row)) : List Row :=
  (tiers.find? (fun t => !t.isEmpty)).getD []

/-- C7 (amended): on a table with a `SubCategory` column, resolution returns
the full row set of the first non-empty tier among Category equality,
Category *regex* containment (pandas `str.contains`, where the `.` of a dotted
path matches any character — not plain substring containment), SubCategory
equality, and SubCategory regex containment; when every tier is empty the
result is the empty row set, not an error. -/
theorem C7_resolution_first_nonempty_tier (df : DF) (path : String)
    (h : df.hasSubCol = true) :
    resolvePath df path =
      firstNonEmptyTier [tierCatEq df path, tierCatContains df path,
        tierSubEq df path, tierSubContains df path] := by
  unfold resolvePath firstNonEmptyTier
  rw [h]
  cases h1 : (tierCatEq df path).isEmpty
  · simp [List.find?, h1]
  · cases h2 : (tierCatContains df path).isEmpty
    · simp [List.find?, h1, h2]
    · cases h3 : (tierSubEq df path).isEmpty
      · simp [List.find?, h1, h2, h3]
      · cases h4 : (tierSubContains df path).isEmpty
        · simp [List.find?, h1, h2, h3, h4]
        · have h4e : tierSubContains df path = [] := by
            simpa using h4
          simp [List.find?, h1, h2, h3, h4, h4e]

/-- A one-row corpus for the C7 witness: the row matches tier 3 (SubCategory
equality). -/
def exDF7 : DF :=
  { rows := [mkRow PVal.na (PVal.s "funding_source") (PVal.s "funding_source.type")
      [("d1", PVal.s "Industry")]]
    docCols := ["d1"]
    hasSubCol := true }

/-- C7 witness: the amended theorem at a concrete table and path. -/
theorem C7_resolution_first_nonempty_tier_witness :
    resolvePath exDF7 "funding_source.type" =
      firstNonEmptyTier [tierCatEq exDF7 "funding_source.type",
        tierCatContains exDF7 "funding_source.type",
        tierSubEq exDF7 "funding_source.type",
        tierSubContains exDF7 "funding_source.type"] :=
  C7_resolution_first_nonempty_tier exDF7 "funding_source.type" rfl

/-- A one-row corpus whose Category `"axb"` matches the dotted path `"a.b"`
as a regex but not as a substring. -/
def exDF7c : DF :=
  { rows := [mkRow PVal.na (PVal.s "axb") PVal.na [("d1", PVal.s "v")]]
    docCols := ["d1"]
    hasSubCol := true }

/-- C7 counterexample: for path `"a.b"` on `exDF7c`, tier 2 as the claim
words it (substring containment) matches nothing — the spec-worded resolver
returns the empty set — yet the code's `str.contains` treats `.` as a regex
wildcard, so `"axb"` matches and resolution returns that row. -/
theorem C7_counterexample :
    (resolvePath exDF7c "a.b").length = 1 ∧
    specResolvePath exDF7c "a.b" = [] ∧
    substrContains "axb" "a.b" = false ∧
    regexContains "axb" "a.b" = true := by
  refine ⟨rfl, rfl, by decide, by decide⟩

/-! ## Claim C3: three-level pruning of insight extraction -/

/-- A fold preserves any invariant its step preserves. -/
theorem foldl_preserve {α β : Type} (P : β → Prop) (f : β → α → β) (l : List α) (b : β)
    (hb : P b) (hf : ∀ b a, P b → P (f b a)) : P (l.foldl f b) := by
  induction l generalizing b with
  | nil => exact hb
  | cons x xs ih => exact ih (f b x) (hf b x hb)

/-- Every entry of a Python-dict insertion is an old entry or the inserted
pair. -/
theorem mem_dictInsert {β : Type} {l : List (String × β)} {k : String} {v : β}
    {p : String × β} (hp : p ∈ dictInsert l k v) : p ∈ l ∨ p = (k, v) := by
  induction l with
  | nil =>
      simp only [dictInsert, List.mem_singleton] at hp
      exact Or.inr hp
  | cons a as ih =>
      obtain ⟨k0, v0⟩ := a
      unfold dictInsert at hp
      split at hp
      · rcases List.mem_cons.mp hp with h | h
        · rename_i heq
          subst heq
          exact Or.inr (by rw [h])
        · exact Or.inl (List.mem_cons_of_mem _ h)
      · rcases List.mem_cons.mp hp with h | h
        · exact Or.inl (h ▸ List.mem_cons_self _ _)
        · rcases ih h with h2 | h2
          · exact Or.inl (List.mem_cons_of_mem _ h2)
          · exact Or.inr h2

/-- Valwes collected by `pathValues` are never NaN (`dropna`). -/
theorem pathValues_not_isna (df : DF) (doc path : String) {v : PVal}
    (hv : v ∈ pathValues df doc path) : v.isna = false := by
  unfold pathValues at hv
  rw [List.mem_filterMap] at hv
  obtain ⟨r, _, hr⟩ := hv
  split at hr
  · exact Option.noConfusion hr
  · rename_i hna
    injection hr with hr
    subst hr
    simpa using hna

/-- The per-path property C3 is about: nonempty, NaN-free, and containing at
least one value that is non-blank after trimming. -/
def goodPathEntry (pe : String × List PVal) : Prop :=
  pe.2 ≠ [] ∧ (∀ v ∈ pe.2, v.isna = false) ∧ ∃ v ∈ pe.2, pyStrip v.toStr ≠ ""

/-- Every path entry a topic fold emits satisfies `goodPathEntry`. -/
theorem topicInsights_good (df : DF) (doc : String) (paths : List String) :
    ∀ pe ∈ topicInsights df doc paths, goodPathEntry pe := by
  unfold topicInsights
  refine foldl_preserve (fun acc => ∀ pe ∈ acc, goodPathEntry pe) _ paths [] (by simp) ?_
  intro acc path hacc pe hpe
  by_cases hc : (!(pathValues df doc path).isEmpty &&
      (pathValues df doc path).any (fun v => pyStrip v.toStr ≠ "")) = true
  · rw [if_pos hc] at hpe
    rcases mem_dictInsert hpe with h | h
    · exact hacc pe h
    · subst h
      simp only [Bool.and_eq_true, Bool.not_eq_true'] at hc
      obtain ⟨hne, hany⟩ := hc
      refine ⟨by simpa using hne, ?_, ?_⟩
      · intro v hv
        exact pathValues_not_isna df doc path hv
      · simpa using hany
  · rw [if_neg hc] at hpe
    exact hacc pe hpe

/-- Every topic entry a document fold emits is nonempty and holds only good
path entries. -/
theorem docInsights_good (df : DF) (doc : String) (cats : List (String × List String)) :
    ∀ te ∈ docInsights df doc cats,
      te.2 ≠ [] ∧ ∀ pe ∈ te.2, goodPathEntry pe := by
  unfold docInsights
  refine foldl_preserve
    (fun (acc : List (String × List (String × List PVal))) =>
      ∀ te ∈ acc, te.2 ≠ [] ∧ ∀ pe ∈ te.2, goodPathEntry pe)
    _ cats [] (by simp) ?_
  intro acc tp hacc te hte
  by_cases hc : (!(topicInsights df doc tp.2).isEmpty) = true
  · rw [if_pos hc] at hte
    rcases mem_dictInsert hte with h | h
    · exact hacc te h
    · subst h
      simp only [Bool.not_eq_true'] at hc
      exact ⟨by simpa using hc, topicInsights_good df doc tp.2⟩
  · rw [if_neg hc] at hte
    exact hacc te hte

/-- C3 (amended): extraction prunes at all three levels — every emitted
document entry has at least one topic, every topic at least one path entry,
every path entry a nonempty NaN-free value list with at least one value that
is non-blank after trimming.  (The value list itself may still contain
blank-after-trim strings alongside a non-blank one, which is what the
counterexample shows.) -/
theorem C3_three_level_pruning (df : DF) (docs : List String)
    (cats : List (String × List String)) :
    ∀ de ∈ extractResearchInsights df docs cats,
      de.2 ≠ [] ∧
      ∀ te ∈ de.2, te.2 ≠ [] ∧
        ∀ pe ∈ te.2, pe.2 ≠ [] ∧ (∀ v ∈ pe.2, v.isna = false) ∧
          ∃ v ∈ pe.2, pyStrip v.toStr ≠ "" := by
  unfold extractResearchInsights
  refine foldl_preserve
    (fun (acc : List (String × List (String × List (String × List PVal)))) =>
      ∀ de ∈ acc, de.2 ≠ [] ∧ ∀ te ∈ de.2, te.2 ≠ [] ∧
        ∀ pe ∈ te.2, pe.2 ≠ [] ∧ (∀ v ∈ pe.2, v.isna = false) ∧
          ∃ v ∈ pe.2, pyStrip v.toStr ≠ "")
    _ docs [] (by simp) ?_
  intro acc doc hacc de hde
  by_cases hc : (!(docInsights df doc cats).isEmpty) = true
  · rw [if_pos hc] at hde
    rcases mem_dictInsert hde with h | h
    · exact hacc de h
    · subst h
      simp only [Bool.not_eq_true'] at hc
      refine ⟨by simpa using hc, ?_⟩
      intro te hte
      obtain ⟨hne, hgood⟩ := docInsights_good df doc cats te hte
      exact ⟨hne, fun pe hpe => hgood pe hpe⟩
  · rw [if_neg hc] at hde
    exact hacc de hde

/-- A corpus whose `main_conclusions` field holds, for `"d1"`, an empty string
in one row and `"x"` in another. -/
def exDF3 : DF :=
  { rows := [mkRow PVal.na (PVal.s "main_conclusions") PVal.na [("d1", PVal.s "")],
             mkRow PVal.na (PVal.s "main_conclusions") PVal.na [("d1", PVal.s "x")]]
    docCols := ["d1"]
    hasSubCol := true }

/-- C3 counterexample: the emitted value list for `main_conclusions` is the
full `dropna` list `["", "x"]` — it contains the empty-after-trimming string
`""`, so the claim that every value in every list is non-empty after trimming
is false. -/
theorem C3_counterexample :
    extractResearchInsights exDF3 ["d1"] [("Key Findings", ["main_conclusions"])] =
      [("d1", [("Key Findings", [("main_conclusions", [PVal.s "", PVal.s "x"])])])] ∧
    pyStrip (PVal.s "").toStr = "" ∧ (PVal.s "").isna = false := by
  refine ⟨rfl, rfl, rfl⟩

/-- C3 witness: the pruning theorem applied to the concrete corpus `exDF3`
at its one emitted document entry. -/
theorem C3_three_level_pruning_witness :
    ([("Key Findings", [("main_conclusions", [PVal.s "", PVal.s "x"])])] :
      List (String × List (String × List PVal))) ≠ [] :=
  (C3_three_level_pruning exDF3 ["d1"] [("Key Findings", ["main_conclusions"])]
    ("d1", [("Key Findings", [("main_conclusions", [PVal.s "", PVal.s "x"])])])
    (by decide)).1

/-! ## Claim C10: insight keying by title and overwrite on collision -/

/-- Looking up after a Python-dict insertion: the inserted key now maps to the
new value, other keys are unchanged. -/
theorem dictLookup_dictInsert {β : Type} (l : List (String × β)) (k k2 : String) (v : β) :
    dictLookup (dictInsert l k v) k2 = if k2 = k then some v else dictLookup l k2 := by
  induction l with
  | nil =>
      by_cases h : k2 = k
      · subst h
        simp [dictInsert, dictLookup]
      · simp [dictInsert, dictLookup, h, Ne.symm h]
  | cons a as ih =>
      obtain ⟨k0, v0⟩ := a
      by_cases h0 : k0 = k
      · subst h0
        by_cases h2 : k0 = k2
        · subst h2
          simp [dictInsert, dictLookup]
        · simp [dictInsert, dictLookup, h2, Ne.symm h2]
      · by_cases h2 : k0 = k2
        · subst h2
          simp [dictInsert, dictLookup, h0, Ne.symm h0]
        · simp [dictInsert, dictLookup, h0, h2, ih]

/-- The fold of `extract_research_insights_from_docs`, looked up at any key:
the last document in order whose identifier is that key and whose insight dict
is nonempty wins; with no such document the accumulator's binding shows
through. -/
theorem extract_foldl_lookup (df : DF) (cats : List (String × List String)) (k : String)
    (docs : List String) (acc : List (String × List (String × List (String × List PVal)))) :
    dictLookup (docs.foldl (fun acc2 doc =>
        if !(docInsights df doc cats).isEmpty then
          dictInsert acc2 (docIdentifier df doc) (docInsights df doc cats)
        else acc2) acc) k =
      match (docs.filter (fun d => decide (docIdentifier df d = k) &&
          !(docInsights df d cats).isEmpty)).getLast? with
      | some d => some (docInsights df d cats)
      | none => dictLookup acc k := by
  induction docs using List.reverseRecOn generalizing acc with
  | nil => rfl
  | append_singleton l d ih =>
      rw [List.foldl_append, List.filter_append]
      simp only [List.foldl_cons, List.foldl_nil, List.filter_cons, List.filter_nil]
      by_cases hdi : (!(docInsights df d cats).isEmpty) = true
      · rw [if_pos hdi]
        rw [dictLookup_dictInsert]
        by_cases hk : k = docIdentifier df d
        · rw [if_pos hk]
          have hcond : (decide (docIdentifier df d = k) &&
              !(docInsights df d cats).isEmpty) = true := by
            rw [hdi, decide_eq_true hk.symm]
            rfl
          rw [if_pos hcond, hk]
          rw [List.getLast?_append_cons]
          rfl
        · rw [if_neg hk]
          have hcond : (decide (docIdentifier df d = k) &&
              !(docInsights df d cats).isEmpty) = false := by
            have : decide (docIdentifier df d = k) = false :=
              decide_eq_false (fun hh => hk hh.symm)
            rw [this]
            rfl
          rw [if_neg (by rw [hcond]; exact Bool.false_ne_true)]
          rw [List.append_nil]
          exact ih acc
      · rw [if_neg hdi]
        have hcond : (decide (docIdentifier df d = k) &&
            !(docInsights df d cats).isEmpty) = false := by
          cases hx : (!(docInsights df d cats).isEmpty)
          · exact Bool.and_false _
          · exact absurd hx hdi
        rw [if_neg (by rw [hcond]; exact Bool.false_ne_true)]
        rw [List.append_nil]
        exact ih acc

/-- C10 (amended): extraction keys its output by `doc_identifier` — the
resolved title when that title is truthy (nonempty) and non-missing, the
column id otherwise (so also for an *empty-string* title, which the
counterexample shows) — and a lookup at any key returns the insight dict of
the *last* document in iteration order with that identifier and nonempty
insights: collisions are silently overwritten by the later document. -/
theorem C10_identifier_last_writer (df : DF) (docs : List String)
    (cats : List (String × List String)) (k : String) :
    dictLookup (extractResearchInsights df docs cats) k =
      ((docs.filter (fun d => decide (docIdentifier df d = k) &&
          !(docInsights df d cats).isEmpty)).getLast?).map
        (fun d => docInsights df d cats) := by
  unfold extractResearchInsights
  rw [extract_foldl_lookup]
  cases (docs.filter (fun d => decide (docIdentifier df d = k) &&
      !(docInsights df d cats).isEmpty)).getLast? with
  | none => rfl
  | some d => rfl

/-- A corpus with two documents both titled `"T"`, holding different
`main_conclusions` values. -/
def exDF10 : DF :=
  { rows := [mkRow (PVal.s "meta_data") (PVal.s "title") PVal.na
      [("d1", PVal.s "T"), ("d2", PVal.s "T")],
      mkRow PVal.na (PVal.s "main_conclusions") PVal.na
      [("d1", PVal.s "alpha"), ("d2", PVal.s "beta")]]
    docCols := ["d1", "d2"]
    hasSubCol := true }

/-- C10 witness: on `exDF10` both documents resolve to title `"T"`; the
extraction output has a single entry under `"T"` and it holds the *second*
document's insights, as the amended theorem states. -/
theorem C10_identifier_last_writer_witness :
    dictLookup (extractResearchInsights exDF10 ["d1", "d2"]
        [("Key Findings", ["main_conclusions"])]) "T" =
      ((["d1", "d2"].filter (fun d => decide (docIdentifier exDF10 d = "T") &&
          !(docInsights exDF10 d [("Key Findings", ["main_conclusions"])]).isEmpty)).getLast?).map
        (fun d => docInsights exDF10 d [("Key Findings", ["main_conclusions"])]) :=
  C10_identifier_last_writer exDF10 ["d1", "d2"] [("Key Findings", ["main_conclusions"])] "T"

/-- A corpus whose title row stores, for `"d1"`, the *empty string* — a
non-missing title — plus an insight row. -/
def exDF10c : DF :=
  { rows := [mkRow (PVal.s "meta_data") (PVal.s "title") PVal.na [("d1", PVal.s "")],
      mkRow PVal.na (PVal.s "main_conclusions") PVal.na [("d1", PVal.s "x")]]
    docCols := ["d1"]
    hasSubCol := true }

/-- C10 counterexample: `"d1"`'s resolved title exists and is non-missing
(the empty string), yet extraction keys the entry by the column id `"d1"`,
not the title — falsiness, not only missingness, triggers the fallback. -/
theorem C10_counterexample :
    docTitle exDF10c "d1" = some (PVal.s "") ∧
    (PVal.s "").isna = false ∧
    (extractResearchInsights exDF10c ["d1"]
        [("Key Findings", ["main_conclusions"])]).map Prod.fst = ["d1"] := by
  refine ⟨rfl, rfl, rfl⟩

/-! ## Claim C1: behaviour of search on an uninitialized index -/

/-- C1 (amended): when the RAG system is uninitialized (or holds no index),
`search_documents_faiss` returns the *empty list* — the error is only printed,
so the caller cannot distinguish "no index" from "no matches" — and
`get_relevant_documents` likewise returns `[]`. -/
theorem C1_uninitialized_returns_empty (rs : RAGSystem) (qEmb : Vec) (topK : Nat)
    (apiKey : String) (h : rs.isInitialized = false ∨ rs.faissIndex = none) :
    searchDocumentsFaiss rs qEmb topK = [] ∧
    (rs.isInitialized = false → getRelevantDocuments rs apiKey qEmb topK = []) := by
  constructor
  · unfold searchDocumentsFaiss
    rcases h with h | h
    · cases hfi : rs.faissIndex with
      | none => rfl
      | some stored =>
          rw [h]
          rfl
    · rw [h]
  · intro h2
    unfold getRelevantDocuments
    rw [h2]
    rfl

/-- C1 witness: the amended theorem at a concrete uninitialized system that
does hold an index. -/
theorem C1_uninitialized_returns_empty_witness :
    searchDocumentsFaiss
        { isInitialized := false, faissIndex := some [[1]], pageMetadata := [] } [2] 5 = [] ∧
    getRelevantDocuments
        { isInitialized := false, faissIndex := some [[1]], pageMetadata := [] } "k" [2] 5 = [] :=
  ⟨(C1_uninitialized_returns_empty
      { isInitialized := false, faissIndex := some [[1]], pageMetadata := [] } [2] 5 "k"
      (Or.inl rfl)).1,
   (C1_uninitialized_returns_empty
      { isInitialized := false, faissIndex := some [[1]], pageMetadata := [] } [2] 5 "k"
      (Or.inl rfl)).2 rfl⟩

/-- C1 counterexample: on a fully uninitialized system both entry points
return the empty result list for a query — no Uninitialized failure reaches
the caller, contradicting "never returns an empty result list". -/
theorem C1_counterexample :
    searchDocumentsFaiss
        { isInitialized := false, faissIndex := none, pageMetadata := [] } [1] 8 = [] ∧
    getRelevantDocuments
        { isInitialized := false, faissIndex := none, pageMetadata := [] } "key" [1] 8 = [] := by
  refine ⟨rfl, rfl⟩

/-! ## Claim C2: k larger than the index size -/

/-- Empty passage metadata fields. -/
def exMeta : MetaInfo :=
  { publicationYear := none, authors := none, journal := none, doi := none }

/-- Five passages. -/
def exPages : List PageMeta :=
  [{ pdfName := "p1", pageNumber := 1, content := "c1", metadata := exMeta },
   { pdfName := "p2", pageNumber := 2, content := "c2", metadata := exMeta },
   { pdfName := "p3", pageNumber := 3, content := "c3", metadata := exMeta },
   { pdfName := "p4", pageNumber := 4, content := "c4", metadata := exMeta },
   { pdfName := "p5", pageNumber := 5, content := "c5", metadata := exMeta }]

/-- An initialized system whose index holds five vectors. -/
def exRAG5 : RAGSystem :=
  { isInitialized := true
    faissIndex := some [[5], [4], [3], [2], [1]]
    pageMetadata := exPages }

/-- C2 (code evaluated at the failing input): with an index of 5 passages and
`top_k = 8`, the search returns **8** results, not 5 — FAISS pads the missing
hits with label `-1`, the guard `idx < len(page_metadata)` lets `-1` through,
and Python's negative indexing makes the three padded slots duplicate the
*last* passage. -/
theorem C2_padding_eval :
    exRAG5.pageMetadata.length = 5 ∧
    (searchDocumentsFaiss exRAG5 [1] 8).length = 8 ∧
    (searchDocumentsFaiss exRAG5 [1] 8).map (fun r => r.pdfName) =
      ["p1", "p2", "p3", "p4", "p5", "p5", "p5", "p5"] := by
  refine ⟨by decide, by decide, by decide⟩

end Spec2Proof
